import Mathlib

/-!
# Unary server interceptors of the leo middleware packages

A shallow embedding of `middleware/recovery/grpc.go` and
`middleware/metrics/grpc.go`.

Go code with effects is embedded as a function from the ambient state of the
program (`W`) to an outcome: how control left the call (normal return, an
unwinding panic, or a goroutine exit), the new ambient state, and the ordered
list of the observable calls made on the way (instrument creation, error
reports, recorder calls, calls of the next handler, calls of the conversion
handler).
-/

namespace Leo

/-! ## Values of the Go runtime and of the gRPC library -/

/-- Status codes of `google.golang.org/grpc/codes`. -/
inductive Code
  | OK | Canceled | Unknown | InvalidArgument | DeadlineExceeded | NotFound
  | AlreadyExists | PermissionDenied | ResourceExhausted | FailedPrecondition
  | Aborted | OutOfRange | Unimplemented | Internal | Unavailable | DataLoss
  | Unauthenticated
  deriving DecidableEq

/-- The text `Code.String()` prints for a status code. -/
def Code.String : Code → String
  | .OK => "OK"
  | .Canceled => "Canceled"
  | .Unknown => "Unknown"
  | .InvalidArgument => "InvalidArgument"
  | .DeadlineExceeded => "DeadlineExceeded"
  | .NotFound => "NotFound"
  | .AlreadyExists => "AlreadyExists"
  | .PermissionDenied => "PermissionDenied"
  | .ResourceExhausted => "ResourceExhausted"
  | .FailedPrecondition => "FailedPrecondition"
  | .Aborted => "Aborted"
  | .OutOfRange => "OutOfRange"
  | .Unimplemented => "Unimplemented"
  | .Internal => "Internal"
  | .Unavailable => "Unavailable"
  | .DataLoss => "DataLoss"
  | .Unauthenticated => "Unauthenticated"

/-- A non-nil value of the Go interface `error`: either a gRPC status error
(code and message), or any other error, given by the text of its `Error()`
method and, when it implements `fmt.Formatter`, by what it prints under the
verb `%+v`.  A nil `error` is `none : Option GoError`. -/
inductive GoError
  | status (c : Code) (msg : String)
  | plain (text : String) (formatted : Option String)
  deriving DecidableEq

/-- The method `Error()`. -/
def GoError.Error : GoError → String
  | .status c msg => "rpc error: code = " ++ c.String ++ " desc = " ++ msg
  | .plain text _ => text

/-- What `fmt` prints for an error under `%+v`: the output of its formatter if
it has one, its `Error()` text otherwise. -/
def fmtPlusV : GoError → String
  | .plain _ (some f) => f
  | e => e.Error

/-- A value of the Go type `any`: the nil interface, a value whose dynamic type
implements `error`, or any other value (of a type `V` left open). -/
inductive Any (V : Type)
  | nil
  | err (e : GoError)
  | val (v : V)
  deriving DecidableEq

/-- The test `r != nil` on a value of type `any`. -/
def Any.isNil {V : Type} : Any V → Bool
  | .nil => true
  | _ => false

/-- What `fmt` prints for a value under `%v`; `fmtV` is the rendering of the
values that are not errors. -/
def sprintV {V : Type} (fmtV : V → String) : Any V → String
  | .nil => "<nil>"
  | .err e => e.Error
  | .val v => fmtV v

/-- The function `fmt.Errorf("%v", p)`: an error whose text is `p` under `%v`. -/
def fmtErrorfV {V : Type} (fmtV : V → String) (p : Any V) : GoError :=
  .plain (sprintV fmtV p) none

/-- The function `status.Errorf(c, ...)` once the message is formatted: nil for
the code OK, a status error otherwise. -/
def statusErrorf (c : Code) (msg : String) : Option GoError :=
  if c = Code.OK then none else some (.status c msg)

/-- The argument `*grpc.UnaryServerInfo` of an interceptor. -/
structure UnaryServerInfo where
  FullMethod : String
  deriving DecidableEq

/-! ## Observable calls -/

/-- An attribute of the metrics library (`attribute.KeyValue`). -/
structure KeyValue where
  Key : String
  Value : String
  deriving DecidableEq

/-- The five instruments of the metrics middleware, named after the variables
that hold them. -/
inductive Instrument
  | serverHandledHistogram
  | serverStartedCounter
  | serverHandledCounter
  | serverStreamMsgReceived
  | serverStreamMsgSent
  deriving DecidableEq

/-- What is handed to the meter when an instrument is requested. -/
structure InstrumentSpec where
  histogram : Bool
  name : String
  description : String
  unit : String
  deriving DecidableEq

/-- The observable calls an interceptor or its factory makes, in the order they
happen.  `add` and `record` carry the attribute list handed to
`attribute.NewSet`. -/
inductive Event (Ctx V : Type)
  | create (s : InstrumentSpec)
  | report (e : GoError)
  | add (i : Instrument) (ctx : Ctx) (incr : Int) (attrs : List KeyValue)
  | record (i : Instrument) (ctx : Ctx) (value : Int) (attrs : List KeyValue)
  | call (ctx : Ctx) (req : Any V)
  | handle (ctx : Ctx) (r : Any V)
  deriving DecidableEq

/-! ## Effectful computations -/

/-- How control leaves a Go function call: it returns, it unwinds with a panic
(`r` is the value `recover()` yields for it, which is nil for a nil panic
value where the runtime permits one), or the goroutine is exiting through
`runtime.Goexit`. -/
inductive Res (V α : Type)
  | ret (a : α)
  | panic (r : Any V)
  | goexit
  deriving DecidableEq

/-- The outcome of running a computation. -/
structure Out (Ctx V W α : Type) where
  res : Res V α
  world : W
  trace : List (Event Ctx V)

/-- An effectful computation over the ambient state `W`. -/
def M (Ctx V W α : Type) : Type := W → Out Ctx V W α

/-- Return without effect. -/
def M.pure {Ctx V W α : Type} (a : α) : M Ctx V W α :=
  fun w => ⟨.ret a, w, []⟩

/-- Sequencing: the rest runs only if the first part returns; a panic or a
goroutine exit leaves the enclosing function at once. -/
def M.bind {Ctx V W α β : Type} (m : M Ctx V W α) (f : α → M Ctx V W β) : M Ctx V W β :=
  fun w =>
    match m w with
    | ⟨.ret a, w1, t1⟩ =>
      match f a w1 with
      | ⟨r, w2, t2⟩ => ⟨r, w2, t1 ++ t2⟩
    | ⟨.panic r, w1, t1⟩ => ⟨.panic r, w1, t1⟩
    | ⟨.goexit, w1, t1⟩ => ⟨.goexit, w1, t1⟩

instance instMonadM {Ctx V W : Type} : Monad (M Ctx V W) where
  pure := M.pure
  bind := M.bind

/-- Log one observable call. -/
def emit {Ctx V W : Type} (e : Event Ctx V) : M Ctx V W Unit :=
  fun w => ⟨.ret (), w, [e]⟩

/-- The type `grpc.UnaryHandler`. -/
abbrev UnaryHandler (Ctx V W : Type) : Type :=
  Ctx → Any V → M Ctx V W (Any V × Option GoError)

/-- The type `grpc.UnaryServerInterceptor`. -/
abbrev UnaryServerInterceptor (Ctx V W : Type) : Type :=
  Ctx → Any V → UnaryServerInfo → UnaryHandler Ctx V W → M Ctx V W (Any V × Option GoError)

/-- The type `func(context.Context, any) error` of a conversion handler. -/
abbrev Handle (Ctx V W : Type) : Type :=
  Ctx → Any V → M Ctx V W (Option GoError)

/-- The call `handler(ctx, req)` made by an interceptor: the call is logged,
then the handler runs. -/
def invoke {Ctx V W : Type} (handler : UnaryHandler Ctx V W) (ctx : Ctx) (req : Any V) :
    M Ctx V W (Any V × Option GoError) :=
  fun w =>
    match handler ctx req w with
    | ⟨r, w1, t1⟩ => ⟨r, w1, Event.call ctx req :: t1⟩

/-- The call `handle(ctx, r)` made by the deferred function: the call is logged,
then the conversion handler runs. -/
def callHandle {Ctx V W : Type} (handle : Handle Ctx V W) (ctx : Ctx) (r : Any V) :
    M Ctx V W (Option GoError) :=
  fun w =>
    match handle ctx r w with
    | ⟨e, w1, t1⟩ => ⟨e, w1, Event.handle ctx r :: t1⟩

/-! ## middleware/recovery/grpc.go -/

namespace recovery

/-- The conversion handler used when `GRPCServerMiddleware` gets no argument
(grpc.go lines 16-25).  The stack trace written to `buf` is dropped. -/
def defaultHandle {Ctx V W : Type} (fmtV : V → String) : Handle Ctx V W :=
  fun _ctx p =>
    -- err, ok := p.(error); if !ok { err = fmt.Errorf("%v", p) }
    let err : GoError :=
      match p with
      | .err e => e
      | other => fmtErrorfV fmtV other
    M.pure (statusErrorf Code.Internal ("panic triggered: " ++ fmtPlusV err))

/-- The choice of the conversion handler (grpc.go lines 14-28). -/
def chooseHandle {Ctx V W : Type} (fmtV : V → String) :
    List (Handle Ctx V W) → Handle Ctx V W
  | [] => defaultHandle fmtV
  | h :: _ => h

/-- The value `recover()` yields in the deferred function: the panic value
when a panic is unwinding, nil otherwise. -/
def recovered {V α : Type} : Res V α → Any V
  | .panic r => r
  | _ => Any.nil

/-- The local variable `panicked` when the deferred function runs: it is set to
false only by the statement after the call of the handler. -/
def panickedFlag {V α : Type} : Res V α → Bool
  | .ret _ => false
  | _ => true

/-- The results `(_, err)` of the interceptor when the deferred function
starts: what `return resp, err` stored, or the zero values when that statement
was not reached. -/
def resultsAtDefer {V : Type} : Res V (Any V × Option GoError) → Any V × Option GoError
  | .ret (resp, err) => (resp, err)
  | _ => (Any.nil, none)

/-- The deferred function (grpc.go lines 32-36); it yields the value of the
named result `err` when it ends. -/
def deferred {Ctx V W : Type} (handle : Handle Ctx V W) (ctx : Ctx) (r : Any V)
    (panicked : Bool) (err : Option GoError) : M Ctx V W (Option GoError) :=
  if !r.isNil || panicked then
    callHandle handle ctx r
  else
    M.pure err

/-- The interceptor closure (grpc.go lines 29-41), for the chosen `handle`.
The body calls the handler; the deferred function runs on every way out of the
body.  A panic is stopped by `recover()`, so the interceptor then returns its
results; a goroutine exit goes on after the deferred function; a panic or exit
raised by the conversion handler itself leaves the interceptor. -/
def interceptor {Ctx V W : Type} (handle : Handle Ctx V W) : UnaryServerInterceptor Ctx V W :=
  fun ctx req _info handler w =>
    match invoke handler ctx req w with
    | ⟨body, w1, t1⟩ =>
      match deferred handle ctx (recovered body) (panickedFlag body) (resultsAtDefer body).2 w1 with
      | ⟨.ret err, w2, t2⟩ =>
        match body with
        | .goexit => ⟨.goexit, w2, t1 ++ t2⟩
        | _ => ⟨.ret ((resultsAtDefer body).1, err), w2, t1 ++ t2⟩
      | ⟨.panic q, w2, t2⟩ => ⟨.panic q, w2, t1 ++ t2⟩
      | ⟨.goexit, w2, t2⟩ => ⟨.goexit, w2, t1 ++ t2⟩

/-- The factory `recovery.GRPCServerMiddleware(handles...)`. -/
def GRPCServerMiddleware {Ctx V W : Type} (fmtV : V → String)
    (handles : List (Handle Ctx V W)) : UnaryServerInterceptor Ctx V W :=
  interceptor (chooseHandle fmtV handles)

end recovery

/-! ## middleware/metrics/grpc.go -/

/-- The helpers of the package `middleware/internal` used by the metrics
middleware.  Their source is not part of this development, so they are taken
as given: the call-type attribute `GRPCType()`, the attributes
`ParseFullMethod` extracts from a method identifier, and the outcome attribute
`ParseError` derives from the error of the handler. -/
structure Internal where
  GRPCType : KeyValue
  ParseFullMethod : String → List KeyValue
  ParseError : Option GoError → KeyValue

namespace noop

/-- Modelled from the spec: `noop.GRPCServerMiddleware()` of the package
`middleware/noop`, whose source is missing here.  The spec describes it as the
interceptor that invokes the next handler and does nothing else. -/
def GRPCServerMiddleware {Ctx V W : Type} : UnaryServerInterceptor Ctx V W :=
  fun ctx req _info handler => invoke handler ctx req

end noop

namespace metrics

/-- The meter provider reached through `otel.GetMeterProvider()`: asked for an
instrument it answers with an error or nil, and may change the ambient state. -/
abbrev Provider (W : Type) : Type := InstrumentSpec → W → Option GoError × W

/-- The name, description and unit each instrument is requested with
(grpc.go lines 26-69), and whether it is a histogram or a counter. -/
def spec : Instrument → InstrumentSpec
  | .serverHandledHistogram =>
    ⟨true, "grpc.server.handling",
      "Histogram of response latency (milliseconds) of gRPC that had been application-level handled by the server.",
      "ms"⟩
  | .serverStartedCounter =>
    ⟨false, "grpc.server.started", "Total number of RPCs started on the server.", ""⟩
  | .serverHandledCounter =>
    ⟨false, "grpc.server.handled",
      "Total number of RPCs completed on the server, regardless of success or failure.", ""⟩
  | .serverStreamMsgReceived =>
    ⟨false, "grpc.server.msg.received",
      "Total number of RPC stream messages received on the server.", ""⟩
  | .serverStreamMsgSent =>
    ⟨false, "grpc.server.msg.sent",
      "Total number of gRPC stream messages sent by the server.", ""⟩

/-- One request `otel.GetMeterProvider().Meter(...).Int64Histogram(...)` or
`...Int64Counter(...)`; it yields the error `e` of the request. -/
def newInstrument {Ctx V W : Type} (provider : Provider W) (i : Instrument) :
    M Ctx V W (Option GoError) :=
  fun w =>
    match provider (spec i) w with
    | (e, w1) => ⟨.ret e, w1, [Event.create (spec i)]⟩

/-- The call `otel.Handle(e)`. -/
def otelHandle {Ctx V W : Type} (e : GoError) : M Ctx V W Unit :=
  emit (Event.report e)

/-- The map `skipMap` built by the loop of grpc.go lines 21-24, as its
membership test. -/
def mkSkipMap (skips : List String) : String → Bool :=
  skips.foldl (fun m skip => fun k => if k = skip then true else m k) (fun _ => false)

/-- Largest value of `time.Duration` (an int64 count of nanoseconds). -/
def maxDuration : Int := 2 ^ 63 - 1

/-- Smallest value of `time.Duration`. -/
def minDuration : Int := -(2 ^ 63)

/-- The call `time.Since(startTime)` when the monotonic clock reads `now`: the
difference in nanoseconds, saturated to the range of `time.Duration`. -/
def since (startTime now : Int) : Int :=
  if now - startTime > maxDuration then maxDuration
  else if now - startTime < minDuration then minDuration
  else now - startTime

/-- The method `Duration.Milliseconds()`: integer division by 1e6, rounded
towards zero. -/
def Milliseconds (d : Int) : Int := Int.tdiv d 1000000

/-- Read the monotonic clock (`time.Now()`); `clock` gives its reading, in
nanoseconds, in each ambient state. -/
def timeNow {Ctx V W : Type} (clock : W → Int) : M Ctx V W Int :=
  fun w => ⟨.ret (clock w), w, []⟩

/-- The interceptor closure (grpc.go lines 74-99), once the five instruments
exist. -/
def recording {Ctx V W : Type} (I : Internal) (clock : W → Int) (skipMap : String → Bool) :
    UnaryServerInterceptor Ctx V W :=
  fun ctx req info handler =>
    if skipMap info.FullMethod then
      invoke handler ctx req
    else do
      let startTime ← timeNow clock
      let attrs := [I.GRPCType] ++ I.ParseFullMethod info.FullMethod
      emit (Event.add .serverStartedCounter ctx 1 attrs)
      emit (Event.add .serverStreamMsgReceived ctx 1 attrs)
      let (resp, err) ← invoke handler ctx req
      if err = none then
        emit (Event.add .serverStreamMsgSent ctx 1 attrs)
      let now ← timeNow clock
      emit (Event.record .serverHandledHistogram ctx (Milliseconds (since startTime now)) attrs)
      emit (Event.add .serverHandledCounter ctx 1 (attrs ++ [I.ParseError err]))
      return (resp, err)

/-- The factory `metrics.GRPCServerMiddleware(opts...)` (grpc.go lines 17-100).
`Skips` is the field `o.Skips` left by `o.apply(opts...)` and `o.init()`. -/
def GRPCServerMiddleware {Ctx V W : Type} (I : Internal) (clock : W → Int)
    (provider : Provider W) (Skips : List String) :
    M Ctx V W (UnaryServerInterceptor Ctx V W) := do
  let skipMap := mkSkipMap Skips
  match ← newInstrument provider .serverHandledHistogram with
  | some e => do otelHandle e; return noop.GRPCServerMiddleware
  | none =>
  match ← newInstrument provider .serverStartedCounter with
  | some e => do otelHandle e; return noop.GRPCServerMiddleware
  | none =>
  match ← newInstrument provider .serverHandledCounter with
  | some e => do otelHandle e; return noop.GRPCServerMiddleware
  | none =>
  match ← newInstrument provider .serverStreamMsgReceived with
  | some e => do otelHandle e; return noop.GRPCServerMiddleware
  | none =>
  match ← newInstrument provider .serverStreamMsgSent with
  | some e => do otelHandle e; return noop.GRPCServerMiddleware
  | none =>
  return recording I clock skipMap

end metrics

/-! ## Reading a trace -/

/-- The increments handed to the counter `i`, in order. -/
def adds {Ctx V : Type} (i : Instrument) : List (Event Ctx V) → List Int
  | [] => []
  | Event.add j _ n _ :: t => if j = i then n :: adds i t else adds i t
  | _ :: t => adds i t

/-- The total by which the counter `i` grows. -/
def counterTotal {Ctx V : Type} (i : Instrument) (t : List (Event Ctx V)) : Int :=
  (adds i t).sum

/-- The calls of a next handler, with their arguments, in order. -/
def callsOf {Ctx V : Type} : List (Event Ctx V) → List (Ctx × Any V)
  | [] => []
  | Event.call ctx req :: t => (ctx, req) :: callsOf t
  | _ :: t => callsOf t

/-- The calls of a conversion handler, with their arguments, in order. -/
def handlesOf {Ctx V : Type} : List (Event Ctx V) → List (Ctx × Any V)
  | [] => []
  | Event.handle ctx r :: t => (ctx, r) :: handlesOf t
  | _ :: t => handlesOf t

/-- The recorder calls (counter additions and histogram records). -/
def recorderCalls {Ctx V : Type} : List (Event Ctx V) → List (Event Ctx V)
  | [] => []
  | Event.add i ctx n a :: t => Event.add i ctx n a :: recorderCalls t
  | Event.record i ctx v a :: t => Event.record i ctx v a :: recorderCalls t
  | _ :: t => recorderCalls t

/-! ## Runs of the meter provider -/

/-- The instruments in the order in which the factory of the metrics
middleware requests them. -/
def creationOrder : List Instrument :=
  [.serverHandledHistogram, .serverStartedCounter, .serverHandledCounter,
    .serverStreamMsgReceived, .serverStreamMsgSent]

/-- The ambient state after the provider was asked for the instruments `is`,
one after the other. -/
def worldAfter {W : Type} (provider : metrics.Provider W) : List Instrument → W → W
  | [], w => w
  | i :: is, w => worldAfter provider is (provider (metrics.spec i) w).2

/-- Whether the provider, asked for the instruments `is` one after the other
from the state `w`, answers every request with a nil error. -/
def allSucceed {W : Type} (provider : metrics.Provider W) : List Instrument → W → Bool
  | [], _ => true
  | i :: is, w =>
    (provider (metrics.spec i) w).1.isNone && allSucceed provider is (provider (metrics.spec i) w).2

/-! ## Example handlers

Concrete instances: contexts are `Unit`, plain values are strings printed as
they are, and the ambient state is a clock reading in nanoseconds. -/

/-- A handler that takes 5 ms and returns the response "pong" with a nil error. -/
def okHandler : UnaryHandler Unit String Int :=
  fun _ _ w => ⟨.ret (Any.val "pong", none), w + 5000000, []⟩

/-- A handler that takes 5 ms and returns a NotFound status error. -/
def failingHandler : UnaryHandler Unit String Int :=
  fun _ _ w => ⟨.ret (Any.nil, some (GoError.status Code.NotFound "no such key")), w + 5000000, []⟩

/-- A handler that panics with the string "boom". -/
def boomHandler : UnaryHandler Unit String Int :=
  fun _ _ w => ⟨.panic (Any.val "boom"), w, []⟩

/-- A handler that calls `runtime.Goexit()`. -/
def goexitHandler : UnaryHandler Unit String Int :=
  fun _ _ w => ⟨.goexit, w, []⟩

/-- A conversion handler that answers every failure with one fixed error. -/
def fixedHandle : Handle Unit String Int :=
  fun _ _ w => ⟨.ret (some (GoError.plain "converted" none)), w, []⟩

/-- A conversion handler that is never meant to be reached. -/
def otherHandle : Handle Unit String Int :=
  fun _ _ w => ⟨.ret none, w, []⟩

/-- A provider that cannot make the counter "grpc.server.handled" and counts
the requests it gets. -/
def brokenProvider : metrics.Provider Int :=
  fun s w =>
    (if s.name = "grpc.server.handled" then some (GoError.plain "no such meter" none) else none,
      w + 1)

/-- A provider that makes every instrument and counts the requests it gets. -/
def workingProvider : metrics.Provider Int :=
  fun _ w => (none, w + 1)

/-- The call metadata of the method "/svc/Get". -/
def svcGet : UnaryServerInfo := ⟨"/svc/Get"⟩

/-- An instance of the helpers of `middleware/internal`, for the examples: one
attribute for the call type, one for the full method, and the status code of
the error ("OK" for nil, "Unknown" for an error without a status). -/
def exampleInternal : Internal where
  GRPCType := ⟨"type", "unary"⟩
  ParseFullMethod := fun m => [⟨"full_method", m⟩]
  ParseError := fun err =>
    match err with
    | none => ⟨"code", "OK"⟩
    | some (GoError.status c _) => ⟨"code", c.String⟩
    | some (GoError.plain _ _) => ⟨"code", "Unknown"⟩

/-! ## Shared lemmas -/

theorem bind_apply {Ctx V W α β : Type} (m : M Ctx V W α) (f : α → M Ctx V W β) (w : W) :
    (m >>= f) w = M.bind m f w := rfl

theorem pure_apply {Ctx V W α : Type} (a : α) (w : W) :
    (Pure.pure a : M Ctx V W α) w = ⟨.ret a, w, []⟩ := rfl

theorem interceptor_of_ret {Ctx V W : Type} (handle : Handle Ctx V W) (ctx : Ctx)
    (req : Any V) (info : UnaryServerInfo) (handler : UnaryHandler Ctx V W) (w w1 : W)
    (R : Any V) (E : Option GoError) (t1 : List (Event Ctx V))
    (hret : handler ctx req w = ⟨.ret (R, E), w1, t1⟩) :
    recovery.interceptor handle ctx req info handler w
      = ⟨.ret (R, E), w1, Event.call ctx req :: t1⟩ := by
  simp [recovery.interceptor, invoke, hret, recovery.deferred, recovery.recovered,
    recovery.panickedFlag, recovery.resultsAtDefer, Any.isNil, M.pure]

theorem interceptor_of_panic {Ctx V W : Type} (handle : Handle Ctx V W) (ctx : Ctx)
    (req : Any V) (info : UnaryServerInfo) (handler : UnaryHandler Ctx V W) (w w1 : W)
    (p : Any V) (t1 : List (Event Ctx V))
    (hpanic : handler ctx req w = ⟨.panic p, w1, t1⟩) :
    recovery.interceptor handle ctx req info handler w
      = match handle ctx p w1 with
        | ⟨.ret e, w2, t2⟩ => ⟨.ret (Any.nil, e), w2, Event.call ctx req :: t1 ++ Event.handle ctx p :: t2⟩
        | ⟨.panic q, w2, t2⟩ => ⟨.panic q, w2, Event.call ctx req :: t1 ++ Event.handle ctx p :: t2⟩
        | ⟨.goexit, w2, t2⟩ => ⟨.goexit, w2, Event.call ctx req :: t1 ++ Event.handle ctx p :: t2⟩ := by
  simp only [recovery.interceptor, invoke, hpanic, recovery.deferred, recovery.recovered,
    recovery.panickedFlag, recovery.resultsAtDefer, Bool.or_true, if_true, callHandle]
  rcases handle ctx p w1 with ⟨r, w2, t2⟩
  cases r <;> simp

theorem interceptor_of_goexit {Ctx V W : Type} (handle : Handle Ctx V W) (ctx : Ctx)
    (req : Any V) (info : UnaryServerInfo) (handler : UnaryHandler Ctx V W) (w w1 : W)
    (t1 : List (Event Ctx V))
    (hexit : handler ctx req w = ⟨.goexit, w1, t1⟩) :
    recovery.interceptor handle ctx req info handler w
      = match handle ctx Any.nil w1 with
        | ⟨.ret _, w2, t2⟩ => ⟨.goexit, w2, Event.call ctx req :: t1 ++ Event.handle ctx Any.nil :: t2⟩
        | ⟨.panic q, w2, t2⟩ => ⟨.panic q, w2, Event.call ctx req :: t1 ++ Event.handle ctx Any.nil :: t2⟩
        | ⟨.goexit, w2, t2⟩ => ⟨.goexit, w2, Event.call ctx req :: t1 ++ Event.handle ctx Any.nil :: t2⟩ := by
  simp only [recovery.interceptor, invoke, hexit, recovery.deferred, recovery.recovered,
    recovery.panickedFlag, recovery.resultsAtDefer, Bool.or_true, if_true, callHandle]
  rcases handle ctx Any.nil w1 with ⟨r, w2, t2⟩
  cases r <;> simp

theorem handlesOf_append {Ctx V : Type} (s t : List (Event Ctx V)) :
    handlesOf (s ++ t) = handlesOf s ++ handlesOf t := by
  induction s with
  | nil => rfl
  | cons e s ih => cases e <;> simp [handlesOf, ih]

theorem adds_append {Ctx V : Type} (i : Instrument) (s t : List (Event Ctx V)) :
    adds i (s ++ t) = adds i s ++ adds i t := by
  induction s with
  | nil => rfl
  | cons e s ih =>
    cases e <;> simp [adds, ih]
    split <;> simp

theorem callsOf_append {Ctx V : Type} (s t : List (Event Ctx V)) :
    callsOf (s ++ t) = callsOf s ++ callsOf t := by
  induction s with
  | nil => rfl
  | cons e s ih => cases e <;> simp [callsOf, ih]

theorem recorderCalls_append {Ctx V : Type} (s t : List (Event Ctx V)) :
    recorderCalls (s ++ t) = recorderCalls s ++ recorderCalls t := by
  induction s with
  | nil => rfl
  | cons e s ih => cases e <;> simp [recorderCalls, ih]

theorem foldl_skip {skips : List String} (m : String → Bool) (k : String) :
    skips.foldl (fun m skip => fun k => if k = skip then true else m k) m k = true
      ↔ k ∈ skips ∨ m k = true := by
  induction skips generalizing m with
  | nil => simp
  | cons a l ih =>
    simp only [List.foldl_cons, ih, List.mem_cons]
    by_cases hk : k = a
    · simp [hk]
    · simp [hk]

theorem mkSkipMap_eq_true {skips : List String} (k : String) :
    metrics.mkSkipMap skips k = true ↔ k ∈ skips := by
  unfold metrics.mkSkipMap
  rw [foldl_skip]
  simp

theorem mkSkipMap_eq_false {skips : List String} (k : String) (hk : k ∉ skips) :
    metrics.mkSkipMap skips k = false := by
  cases h : metrics.mkSkipMap skips k
  · rfl
  · exact absurd ((mkSkipMap_eq_true k).1 h) hk

theorem recording_of_skip {Ctx V W : Type} (I : Internal) (clock : W → Int)
    (skipMap : String → Bool) (ctx : Ctx) (req : Any V) (info : UnaryServerInfo)
    (handler : UnaryHandler Ctx V W) (hskip : skipMap info.FullMethod = true) :
    metrics.recording I clock skipMap ctx req info handler = invoke handler ctx req := by
  simp [metrics.recording, hskip]

theorem recording_of_ret {Ctx V W : Type} (I : Internal) (clock : W → Int)
    (skipMap : String → Bool) (ctx : Ctx) (req : Any V) (info : UnaryServerInfo)
    (handler : UnaryHandler Ctx V W) (w w1 : W) (resp : Any V) (err : Option GoError)
    (t1 : List (Event Ctx V)) (hskip : skipMap info.FullMethod = false)
    (hret : handler ctx req w = ⟨.ret (resp, err), w1, t1⟩) :
    metrics.recording I clock skipMap ctx req info handler w
      = ⟨.ret (resp, err), w1,
          [Event.add .serverStartedCounter ctx 1
              (I.GRPCType :: I.ParseFullMethod info.FullMethod),
            Event.add .serverStreamMsgReceived ctx 1
              (I.GRPCType :: I.ParseFullMethod info.FullMethod),
            Event.call ctx req]
          ++ t1
          ++ (if err = none then
                [Event.add .serverStreamMsgSent ctx 1
                  (I.GRPCType :: I.ParseFullMethod info.FullMethod)]
              else [])
          ++ [Event.record .serverHandledHistogram ctx
                (metrics.Milliseconds (metrics.since (clock w) (clock w1)))
                (I.GRPCType :: I.ParseFullMethod info.FullMethod),
              Event.add .serverHandledCounter ctx 1
                (I.GRPCType :: I.ParseFullMethod info.FullMethod ++ [I.ParseError err])]⟩ := by
  cases err <;>
    simp [metrics.recording, hskip, bind_apply, pure_apply, M.bind, M.pure, emit,
      metrics.timeNow, invoke, hret]

theorem recording_of_panic {Ctx V W : Type} (I : Internal) (clock : W → Int)
    (skipMap : String → Bool) (ctx : Ctx) (req : Any V) (info : UnaryServerInfo)
    (handler : UnaryHandler Ctx V W) (w w1 : W) (p : Any V)
    (t1 : List (Event Ctx V)) (hskip : skipMap info.FullMethod = false)
    (hpanic : handler ctx req w = ⟨.panic p, w1, t1⟩) :
    metrics.recording I clock skipMap ctx req info handler w
      = ⟨.panic p, w1,
          [Event.add .serverStartedCounter ctx 1
              (I.GRPCType :: I.ParseFullMethod info.FullMethod),
            Event.add .serverStreamMsgReceived ctx 1
              (I.GRPCType :: I.ParseFullMethod info.FullMethod),
            Event.call ctx req]
          ++ t1⟩ := by
  simp [metrics.recording, hskip, bind_apply, M.bind, emit, metrics.timeNow, invoke, hpanic]

theorem interceptor_default_of_panic {Ctx V W : Type} (fmtV : V → String) (ctx : Ctx)
    (req : Any V) (info : UnaryServerInfo) (handler : UnaryHandler Ctx V W) (w w1 : W)
    (p : Any V) (t1 : List (Event Ctx V))
    (hpanic : handler ctx req w = ⟨.panic p, w1, t1⟩) :
    recovery.interceptor (recovery.defaultHandle fmtV) ctx req info handler w
      = ⟨.ret (Any.nil, some (GoError.status Code.Internal
            ("panic triggered: " ++
              (match p with
                | Any.err e => fmtPlusV e
                | q => sprintV fmtV q)))),
          w1, Event.call ctx req :: t1 ++ [Event.handle ctx p]⟩ := by
  rw [interceptor_of_panic (recovery.defaultHandle fmtV) ctx req info handler w w1 p t1 hpanic]
  cases p <;>
    simp [recovery.defaultHandle, M.pure, statusErrorf, fmtErrorfV, fmtPlusV, GoError.Error]

/-! ## middleware/recovery: theorems -/

/-- C1: whatever conversion handlers the factory was given, if the wrapped
handler returns normally with response `R` and error `E`, the recovery
interceptor returns exactly `(R, E)`, leaves the state as the handler left it,
and makes no call besides the one call of the handler: the conversion handler
is not called. -/
theorem recovery_pass_through {Ctx V W : Type} (fmtV : V → String)
    (handles : List (Handle Ctx V W)) (ctx : Ctx) (req : Any V) (info : UnaryServerInfo)
    (handler : UnaryHandler Ctx V W) (w w1 : W) (R : Any V) (E : Option GoError)
    (t1 : List (Event Ctx V))
    (hret : handler ctx req w = ⟨.ret (R, E), w1, t1⟩) :
    recovery.GRPCServerMiddleware fmtV handles ctx req info handler w
        = ⟨.ret (R, E), w1, Event.call ctx req :: t1⟩
      ∧ handlesOf (recovery.GRPCServerMiddleware fmtV handles ctx req info handler w).trace
        = handlesOf t1 := by
  have h := interceptor_of_ret (recovery.chooseHandle fmtV handles) ctx req info handler
    w w1 R E t1 hret
  refine ⟨h, ?_⟩
  simp only [recovery.GRPCServerMiddleware, h]
  simp [handlesOf]

theorem recovery_pass_through_witness :
    okHandler () (Any.val "ping") 0 = ⟨.ret (Any.val "pong", none), 5000000, []⟩
      ∧ (recovery.GRPCServerMiddleware id [fixedHandle] () (Any.val "ping") svcGet okHandler 0
          = ⟨.ret (Any.val "pong", none), 5000000, [Event.call () (Any.val "ping")]⟩
        ∧ handlesOf (recovery.GRPCServerMiddleware id [fixedHandle] () (Any.val "ping") svcGet
            okHandler 0).trace = handlesOf []) :=
  ⟨rfl, recovery_pass_through id [fixedHandle] () (Any.val "ping") svcGet okHandler 0 5000000
    (Any.val "pong") none [] rfl⟩

/-- C2: with no conversion handler supplied, whatever value `p` the wrapped
handler panics with (an error, a value that is not an error, or nil), the
interceptor does not panic: it returns a nil response and the status error of
code Internal whose message is "panic triggered: " followed by `p` printed
under `%+v` when `p` is an error and by `p` printed under `%v` otherwise.  The
default handler is called once and changes nothing else. -/
theorem recovery_default_on_panic {Ctx V W : Type} (fmtV : V → String) (ctx : Ctx)
    (req : Any V) (info : UnaryServerInfo) (handler : UnaryHandler Ctx V W) (w w1 : W)
    (p : Any V) (t1 : List (Event Ctx V))
    (hpanic : handler ctx req w = ⟨.panic p, w1, t1⟩) :
    recovery.GRPCServerMiddleware fmtV ([] : List (Handle Ctx V W)) ctx req info handler w
      = ⟨.ret (Any.nil, some (GoError.status Code.Internal
            ("panic triggered: " ++
              (match p with
                | Any.err e => fmtPlusV e
                | q => sprintV fmtV q)))),
          w1, Event.call ctx req :: t1 ++ [Event.handle ctx p]⟩ := by
  have h := interceptor_of_panic (recovery.defaultHandle fmtV) ctx req info handler
    w w1 p t1 hpanic
  simp only [recovery.GRPCServerMiddleware, recovery.chooseHandle, h]
  cases p <;>
    simp [recovery.defaultHandle, M.pure, statusErrorf, fmtErrorfV, fmtPlusV, GoError.Error]

theorem recovery_default_on_panic_witness :
    boomHandler () (Any.val "ping") 0 = ⟨.panic (Any.val "boom"), 0, []⟩
      ∧ recovery.GRPCServerMiddleware id ([] : List (Handle Unit String Int)) ()
          (Any.val "ping") svcGet boomHandler 0
        = ⟨.ret (Any.nil, some (GoError.status Code.Internal ("panic triggered: " ++ "boom"))),
            0, Event.call () (Any.val "ping") :: [] ++ [Event.handle () (Any.val "boom")]⟩ :=
  ⟨rfl, recovery_default_on_panic id () (Any.val "ping") svcGet boomHandler 0 0
    (Any.val "boom") [] rfl⟩

/-- C8, as the spec states it, fails when the handler leaves through
`runtime.Goexit`: the flag is still true when the deferred function runs, the
supplied conversion handler is called (once, with a nil value) and returns an
error, yet the interceptor does not return that error, nor anything: the
goroutine goes on exiting. -/
theorem recovery_goexit_does_not_return :
    handlesOf (recovery.GRPCServerMiddleware id [fixedHandle, otherHandle] ()
        (Any.val "ping") svcGet goexitHandler 0).trace = [((), Any.nil)]
      ∧ (fixedHandle () Any.nil 0).res = Res.ret (some (GoError.plain "converted" none))
      ∧ (recovery.GRPCServerMiddleware id [fixedHandle, otherHandle] ()
          (Any.val "ping") svcGet goexitHandler 0).res = Res.goexit
      ∧ (recovery.GRPCServerMiddleware id [fixedHandle, otherHandle] ()
          (Any.val "ping") svcGet goexitHandler 0).res
        ≠ Res.ret (Any.nil, some (GoError.plain "converted" none)) := by
  refine ⟨rfl, rfl, rfl, ?_⟩
  intro h
  exact Res.noConfusion h

/-- C8, amended: of the conversion handlers supplied only the first, `h`, is
used.  If the wrapped handler returns normally, `h` is not called and the
result of the handler is returned.  If the wrapped handler panics with the
recovered value `p` (nil included), `h` is called exactly once, with the
context of the invocation and `p`, and when `h` returns `e` the interceptor
returns a nil response and exactly `e` (also when `e` is nil).  If the handler
leaves through `runtime.Goexit`, `h` is called exactly once with the context
and a nil value, and when `h` returns the goroutine goes on exiting: the
interceptor does not return. -/
theorem recovery_supplied_handle {Ctx V W : Type} (fmtV : V → String)
    (h : Handle Ctx V W) (rest : List (Handle Ctx V W)) (ctx : Ctx) (req : Any V)
    (info : UnaryServerInfo) (handler : UnaryHandler Ctx V W) (w : W) :
    recovery.GRPCServerMiddleware fmtV (h :: rest) = recovery.interceptor h
      ∧ (∀ R E w1 t1, handler ctx req w = ⟨.ret (R, E), w1, t1⟩ →
          recovery.GRPCServerMiddleware fmtV (h :: rest) ctx req info handler w
            = ⟨.ret (R, E), w1, Event.call ctx req :: t1⟩)
      ∧ (∀ p w1 t1, handler ctx req w = ⟨.panic p, w1, t1⟩ →
          (recovery.GRPCServerMiddleware fmtV (h :: rest) ctx req info handler w).trace
              = Event.call ctx req :: t1 ++ Event.handle ctx p :: (h ctx p w1).trace
            ∧ (recovery.GRPCServerMiddleware fmtV (h :: rest) ctx req info handler w).world
              = (h ctx p w1).world
            ∧ ∀ e, (h ctx p w1).res = Res.ret e →
                (recovery.GRPCServerMiddleware fmtV (h :: rest) ctx req info handler w).res
                  = Res.ret (Any.nil, e))
      ∧ (∀ w1 t1, handler ctx req w = ⟨.goexit, w1, t1⟩ →
          (recovery.GRPCServerMiddleware fmtV (h :: rest) ctx req info handler w).trace
              = Event.call ctx req :: t1 ++ Event.handle ctx Any.nil :: (h ctx Any.nil w1).trace
            ∧ (recovery.GRPCServerMiddleware fmtV (h :: rest) ctx req info handler w).world
              = (h ctx Any.nil w1).world
            ∧ ∀ e, (h ctx Any.nil w1).res = Res.ret e →
                (recovery.GRPCServerMiddleware fmtV (h :: rest) ctx req info handler w).res
                  = Res.goexit) := by
  refine ⟨rfl, ?_, ?_, ?_⟩
  · intro R E w1 t1 hret
    exact interceptor_of_ret h ctx req info handler w w1 R E t1 hret
  · intro p w1 t1 hpanic
    have hp := interceptor_of_panic h ctx req info handler w w1 p t1 hpanic
    simp only [recovery.GRPCServerMiddleware, recovery.chooseHandle, hp]
    rcases h ctx p w1 with ⟨r, w2, t2⟩
    cases r <;> simp
  · intro w1 t1 hexit
    have hp := interceptor_of_goexit h ctx req info handler w w1 t1 hexit
    simp only [recovery.GRPCServerMiddleware, recovery.chooseHandle, hp]
    rcases h ctx Any.nil w1 with ⟨r, w2, t2⟩
    cases r <;> simp

theorem recovery_supplied_handle_witness :
    boomHandler () (Any.val "ping") 0 = ⟨.panic (Any.val "boom"), 0, []⟩
      ∧ (fixedHandle () (Any.val "boom") 0).res = Res.ret (some (GoError.plain "converted" none))
      ∧ (recovery.GRPCServerMiddleware id [fixedHandle, otherHandle] () (Any.val "ping")
          svcGet boomHandler 0).res = Res.ret (Any.nil, some (GoError.plain "converted" none))
      ∧ (recovery.GRPCServerMiddleware id [fixedHandle, otherHandle] () (Any.val "ping")
          svcGet boomHandler 0).trace
        = Event.call () (Any.val "ping") :: [] ++ Event.handle () (Any.val "boom")
            :: (fixedHandle () (Any.val "boom") 0).trace
      ∧ okHandler () (Any.val "ping") 0 = ⟨.ret (Any.val "pong", none), 5000000, []⟩
      ∧ recovery.GRPCServerMiddleware id [fixedHandle, otherHandle] () (Any.val "ping")
          svcGet okHandler 0
        = ⟨.ret (Any.val "pong", none), 5000000, [Event.call () (Any.val "ping")]⟩
      ∧ goexitHandler () (Any.val "ping") 0 = ⟨.goexit, 0, []⟩
      ∧ (recovery.GRPCServerMiddleware id [fixedHandle, otherHandle] () (Any.val "ping")
          svcGet goexitHandler 0).res = Res.goexit :=
  ⟨rfl, rfl,
    ((recovery_supplied_handle id fixedHandle [otherHandle] () (Any.val "ping") svcGet
      boomHandler 0).2.2.1 (Any.val "boom") 0 [] rfl).2.2 _ rfl,
    ((recovery_supplied_handle id fixedHandle [otherHandle] () (Any.val "ping") svcGet
      boomHandler 0).2.2.1 (Any.val "boom") 0 [] rfl).1,
    rfl,
    (recovery_supplied_handle id fixedHandle [otherHandle] () (Any.val "ping") svcGet
      okHandler 0).2.1 _ _ _ _ rfl,
    rfl,
    ((recovery_supplied_handle id fixedHandle [otherHandle] () (Any.val "ping") svcGet
      goexitHandler 0).2.2.2 0 [] rfl).2.2 _ rfl⟩

/-! ## middleware/metrics: theorems -/

/-- C3: for a method identifier of the skip list, whatever the handler does,
the metrics interceptor does exactly one thing: it calls the handler once with
the context and request it was given, and leaves with what the handler left
with (its response and error if it returns).  None of the five recorders is
touched: the recorder calls of the invocation are those the handler itself
made, if any. -/
theorem metrics_skip_filter {Ctx V W : Type} (I : Internal) (clock : W → Int)
    (Skips : List String) (ctx : Ctx) (req : Any V) (info : UnaryServerInfo)
    (handler : UnaryHandler Ctx V W) (w : W)
    (hskip : info.FullMethod ∈ Skips) :
    metrics.recording I clock (metrics.mkSkipMap Skips) ctx req info handler w
        = ⟨(handler ctx req w).res, (handler ctx req w).world,
            Event.call ctx req :: (handler ctx req w).trace⟩
      ∧ recorderCalls (metrics.recording I clock (metrics.mkSkipMap Skips) ctx req info
          handler w).trace = recorderCalls (handler ctx req w).trace
      ∧ callsOf (metrics.recording I clock (metrics.mkSkipMap Skips) ctx req info
          handler w).trace = (ctx, req) :: callsOf (handler ctx req w).trace := by
  have h := recording_of_skip I clock (metrics.mkSkipMap Skips) ctx req info handler
    ((mkSkipMap_eq_true info.FullMethod).2 hskip)
  rw [h]
  simp [invoke, recorderCalls, callsOf]

theorem metrics_skip_filter_witness :
    svcGet.FullMethod ∈ ["/health", "/svc/Get"]
      ∧ (metrics.recording exampleInternal id (metrics.mkSkipMap ["/health", "/svc/Get"]) ()
            (Any.val "ping") svcGet okHandler 0
          = ⟨(okHandler () (Any.val "ping") 0).res, (okHandler () (Any.val "ping") 0).world,
              Event.call () (Any.val "ping") :: (okHandler () (Any.val "ping") 0).trace⟩
        ∧ recorderCalls (metrics.recording exampleInternal id
            (metrics.mkSkipMap ["/health", "/svc/Get"]) () (Any.val "ping") svcGet
            okHandler 0).trace = recorderCalls (okHandler () (Any.val "ping") 0).trace
        ∧ callsOf (metrics.recording exampleInternal id
            (metrics.mkSkipMap ["/health", "/svc/Get"]) () (Any.val "ping") svcGet
            okHandler 0).trace
          = ((), Any.val "ping") :: callsOf (okHandler () (Any.val "ping") 0).trace) :=
  ⟨by decide, metrics_skip_filter exampleInternal id ["/health", "/svc/Get"] ()
    (Any.val "ping") svcGet okHandler 0 (by decide)⟩

/-- C4: for a method identifier outside the skip list and a handler that
returns `(resp, err)`, the metrics interceptor returns exactly `(resp, err)`,
with `err` nil or not, leaves the state as the handler left it, and calls the
handler exactly once, with the context and request it was given. -/
theorem metrics_outcome_transparent {Ctx V W : Type} (I : Internal) (clock : W → Int)
    (Skips : List String) (ctx : Ctx) (req : Any V) (info : UnaryServerInfo)
    (handler : UnaryHandler Ctx V W) (w w1 : W) (resp : Any V) (err : Option GoError)
    (t1 : List (Event Ctx V))
    (hnot : info.FullMethod ∉ Skips)
    (hret : handler ctx req w = ⟨.ret (resp, err), w1, t1⟩) :
    (metrics.recording I clock (metrics.mkSkipMap Skips) ctx req info handler w).res
        = Res.ret (resp, err)
      ∧ (metrics.recording I clock (metrics.mkSkipMap Skips) ctx req info handler w).world = w1
      ∧ callsOf (metrics.recording I clock (metrics.mkSkipMap Skips) ctx req info
          handler w).trace = (ctx, req) :: callsOf t1 := by
  rw [recording_of_ret I clock (metrics.mkSkipMap Skips) ctx req info handler w w1 resp err t1
    (mkSkipMap_eq_false info.FullMethod hnot) hret]
  refine ⟨rfl, rfl, ?_⟩
  cases err <;> simp [callsOf, callsOf_append]

theorem metrics_outcome_transparent_witness :
    svcGet.FullMethod ∉ ["/health"]
      ∧ failingHandler () (Any.val "ping") 0
        = ⟨.ret (Any.nil, some (GoError.status Code.NotFound "no such key")), 5000000, []⟩
      ∧ ((metrics.recording exampleInternal id (metrics.mkSkipMap ["/health"]) ()
            (Any.val "ping") svcGet failingHandler 0).res
          = Res.ret (Any.nil, some (GoError.status Code.NotFound "no such key"))
        ∧ (metrics.recording exampleInternal id (metrics.mkSkipMap ["/health"]) ()
            (Any.val "ping") svcGet failingHandler 0).world = 5000000
        ∧ callsOf (metrics.recording exampleInternal id (metrics.mkSkipMap ["/health"]) ()
            (Any.val "ping") svcGet failingHandler 0).trace
          = ((), Any.val "ping") :: callsOf []) :=
  ⟨by decide, rfl, metrics_outcome_transparent exampleInternal id ["/health"] ()
    (Any.val "ping") svcGet failingHandler 0 5000000 Any.nil
    (some (GoError.status Code.NotFound "no such key")) [] (by decide) rfl⟩

/-- C5: for a method identifier outside the skip list and a handler that
returns, with a nil error or any other, one invocation of the metrics
interceptor makes exactly one addition to "requests started" and exactly one
to "requests handled", each of 1, besides what the handler itself added: both
counters grow by exactly 1. -/
theorem metrics_started_handled {Ctx V W : Type} (I : Internal) (clock : W → Int)
    (Skips : List String) (ctx : Ctx) (req : Any V) (info : UnaryServerInfo)
    (handler : UnaryHandler Ctx V W) (w w1 : W) (resp : Any V) (err : Option GoError)
    (t1 : List (Event Ctx V))
    (hnot : info.FullMethod ∉ Skips)
    (hret : handler ctx req w = ⟨.ret (resp, err), w1, t1⟩) :
    adds .serverStartedCounter (metrics.recording I clock (metrics.mkSkipMap Skips) ctx req
          info handler w).trace = 1 :: adds .serverStartedCounter t1
      ∧ adds .serverHandledCounter (metrics.recording I clock (metrics.mkSkipMap Skips) ctx req
          info handler w).trace = adds .serverHandledCounter t1 ++ [1]
      ∧ counterTotal .serverStartedCounter (metrics.recording I clock (metrics.mkSkipMap Skips)
          ctx req info handler w).trace = counterTotal .serverStartedCounter t1 + 1
      ∧ counterTotal .serverHandledCounter (metrics.recording I clock (metrics.mkSkipMap Skips)
          ctx req info handler w).trace = counterTotal .serverHandledCounter t1 + 1 := by
  rw [recording_of_ret I clock (metrics.mkSkipMap Skips) ctx req info handler w w1 resp err t1
    (mkSkipMap_eq_false info.FullMethod hnot) hret]
  cases err <;> simp [counterTotal, adds, adds_append, add_comm]

theorem metrics_started_handled_witness :
    svcGet.FullMethod ∉ ["/health"]
      ∧ failingHandler () (Any.val "ping") 0
        = ⟨.ret (Any.nil, some (GoError.status Code.NotFound "no such key")), 5000000, []⟩
      ∧ (adds .serverStartedCounter (metrics.recording exampleInternal id
            (metrics.mkSkipMap ["/health"]) () (Any.val "ping") svcGet failingHandler 0).trace
          = 1 :: adds .serverStartedCounter ([] : List (Event Unit String))
        ∧ adds .serverHandledCounter (metrics.recording exampleInternal id
            (metrics.mkSkipMap ["/health"]) () (Any.val "ping") svcGet failingHandler 0).trace
          = adds .serverHandledCounter ([] : List (Event Unit String)) ++ [1]
        ∧ counterTotal .serverStartedCounter (metrics.recording exampleInternal id
            (metrics.mkSkipMap ["/health"]) () (Any.val "ping") svcGet failingHandler 0).trace
          = counterTotal .serverStartedCounter ([] : List (Event Unit String)) + 1
        ∧ counterTotal .serverHandledCounter (metrics.recording exampleInternal id
            (metrics.mkSkipMap ["/health"]) () (Any.val "ping") svcGet failingHandler 0).trace
          = counterTotal .serverHandledCounter ([] : List (Event Unit String)) + 1) :=
  ⟨by decide, rfl, metrics_started_handled exampleInternal id ["/health"] ()
    (Any.val "ping") svcGet failingHandler 0 5000000 Any.nil
    (some (GoError.status Code.NotFound "no such key")) [] (by decide) rfl⟩

/-- C9: the instruments are requested in the order latency histogram,
started, handled, messages received, messages sent.  If request number `k` is
the first that fails, with error `e`, the factory has made exactly the
requests up to that one, reports `e` once, requests nothing more, and returns
the no-op interceptor, which at every invocation calls the next handler once
and does nothing else.  If all five requests succeed, the factory has made the
five requests, reports nothing, and returns the recording interceptor. -/
theorem metrics_degrade_to_noop {Ctx V W : Type} (I : Internal) (clock : W → Int)
    (provider : metrics.Provider W) (Skips : List String) (w0 : W) :
    (∀ k i e, creationOrder.get? k = some i →
        allSucceed provider (creationOrder.take k) w0 = true →
        (provider (metrics.spec i) (worldAfter provider (creationOrder.take k) w0)).1 = some e →
        (metrics.GRPCServerMiddleware I clock provider Skips w0 : Out Ctx V W _)
          = ⟨.ret noop.GRPCServerMiddleware,
              worldAfter provider (creationOrder.take (k + 1)) w0,
              (creationOrder.take (k + 1)).map (fun j => Event.create (metrics.spec j))
                ++ [Event.report e]⟩)
      ∧ (allSucceed provider creationOrder w0 = true →
        (metrics.GRPCServerMiddleware I clock provider Skips w0 : Out Ctx V W _)
          = ⟨.ret (metrics.recording I clock (metrics.mkSkipMap Skips)),
              worldAfter provider creationOrder w0,
              creationOrder.map (fun j => Event.create (metrics.spec j))⟩)
      ∧ (∀ (ctx : Ctx) (req : Any V) (info : UnaryServerInfo) (handler : UnaryHandler Ctx V W)
          (w : W),
        noop.GRPCServerMiddleware ctx req info handler w
          = ⟨(handler ctx req w).res, (handler ctx req w).world,
              Event.call ctx req :: (handler ctx req w).trace⟩) := by
  refine ⟨?_, ?_, ?_⟩
  · intro k i e hk hall hfail
    rcases k with _ | _ | _ | _ | _ | k
    all_goals
      simp only [creationOrder, List.get?, Option.some.injEq, List.take, allSucceed,
        worldAfter, Bool.and_eq_true, Option.isNone_iff_eq_none, reduceCtorEq] at hk hall hfail
    all_goals subst hk
    all_goals
      simp [metrics.GRPCServerMiddleware, bind_apply, pure_apply, M.bind, M.pure,
        metrics.newInstrument, metrics.otelHandle, emit, hfail, hall, creationOrder, worldAfter]
  · intro hall
    simp only [creationOrder, allSucceed, Bool.and_eq_true, Option.isNone_iff_eq_none] at hall
    simp [metrics.GRPCServerMiddleware, bind_apply, pure_apply, M.bind, M.pure,
      metrics.newInstrument, metrics.otelHandle, emit, hall, creationOrder, worldAfter]
  · intro ctx req info handler w
    simp [noop.GRPCServerMiddleware, invoke]

theorem metrics_degrade_to_noop_witness :
    creationOrder.get? 2 = some Instrument.serverHandledCounter
      ∧ allSucceed brokenProvider (creationOrder.take 2) 0 = true
      ∧ (brokenProvider (metrics.spec .serverHandledCounter)
          (worldAfter brokenProvider (creationOrder.take 2) 0)).1
        = some (GoError.plain "no such meter" none)
      ∧ (metrics.GRPCServerMiddleware exampleInternal id brokenProvider ["/health"] 0 :
          Out Unit String Int _)
        = ⟨.ret noop.GRPCServerMiddleware, 3,
            [Event.create (metrics.spec .serverHandledHistogram),
              Event.create (metrics.spec .serverStartedCounter),
              Event.create (metrics.spec .serverHandledCounter),
              Event.report (GoError.plain "no such meter" none)]⟩
      ∧ allSucceed workingProvider creationOrder 0 = true
      ∧ (metrics.GRPCServerMiddleware exampleInternal id workingProvider ["/health"] 0 :
          Out Unit String Int _)
        = ⟨.ret (metrics.recording exampleInternal id (metrics.mkSkipMap ["/health"])), 5,
            [Event.create (metrics.spec .serverHandledHistogram),
              Event.create (metrics.spec .serverStartedCounter),
              Event.create (metrics.spec .serverHandledCounter),
              Event.create (metrics.spec .serverStreamMsgReceived),
              Event.create (metrics.spec .serverStreamMsgSent)]⟩ :=
  ⟨rfl, by decide, by decide,
    (@metrics_degrade_to_noop Unit String Int exampleInternal id brokenProvider ["/health"] 0).1
      2 Instrument.serverHandledCounter (GoError.plain "no such meter" none) rfl (by decide)
      (by decide),
    by decide,
    (@metrics_degrade_to_noop Unit String Int exampleInternal id workingProvider ["/health"] 0).2.1
      (by decide)⟩

/-- C7: for a method identifier outside the skip list and a handler that
returns `(resp, err)`, one invocation of the metrics interceptor adds 1 to
"messages sent", once, if `err` is nil, and makes no addition to it if `err`
is not nil (besides what the handler itself added). -/
theorem metrics_messages_sent {Ctx V W : Type} (I : Internal) (clock : W → Int)
    (Skips : List String) (ctx : Ctx) (req : Any V) (info : UnaryServerInfo)
    (handler : UnaryHandler Ctx V W) (w w1 : W) (resp : Any V) (err : Option GoError)
    (t1 : List (Event Ctx V))
    (hnot : info.FullMethod ∉ Skips)
    (hret : handler ctx req w = ⟨.ret (resp, err), w1, t1⟩) :
    (err = none →
        adds .serverStreamMsgSent (metrics.recording I clock (metrics.mkSkipMap Skips) ctx
            req info handler w).trace = adds .serverStreamMsgSent t1 ++ [1]
          ∧ counterTotal .serverStreamMsgSent (metrics.recording I clock
              (metrics.mkSkipMap Skips) ctx req info handler w).trace
            = counterTotal .serverStreamMsgSent t1 + 1)
      ∧ (err ≠ none →
        adds .serverStreamMsgSent (metrics.recording I clock (metrics.mkSkipMap Skips) ctx
            req info handler w).trace = adds .serverStreamMsgSent t1
          ∧ counterTotal .serverStreamMsgSent (metrics.recording I clock
              (metrics.mkSkipMap Skips) ctx req info handler w).trace
            = counterTotal .serverStreamMsgSent t1) := by
  rw [recording_of_ret I clock (metrics.mkSkipMap Skips) ctx req info handler w w1 resp err t1
    (mkSkipMap_eq_false info.FullMethod hnot) hret]
  cases err <;> simp [counterTotal, adds, adds_append]

theorem metrics_messages_sent_witness :
    svcGet.FullMethod ∉ ["/health"]
      ∧ okHandler () (Any.val "ping") 0 = ⟨.ret (Any.val "pong", none), 5000000, []⟩
      ∧ counterTotal .serverStreamMsgSent (metrics.recording exampleInternal id
            (metrics.mkSkipMap ["/health"]) () (Any.val "ping") svcGet okHandler 0).trace
          = counterTotal .serverStreamMsgSent ([] : List (Event Unit String)) + 1
      ∧ failingHandler () (Any.val "ping") 0
        = ⟨.ret (Any.nil, some (GoError.status Code.NotFound "no such key")), 5000000, []⟩
      ∧ counterTotal .serverStreamMsgSent (metrics.recording exampleInternal id
            (metrics.mkSkipMap ["/health"]) () (Any.val "ping") svcGet failingHandler 0).trace
          = counterTotal .serverStreamMsgSent ([] : List (Event Unit String)) :=
  ⟨by decide, rfl,
    ((metrics_messages_sent exampleInternal id ["/health"] () (Any.val "ping") svcGet okHandler
      0 5000000 (Any.val "pong") none [] (by decide) rfl).1 rfl).2,
    rfl,
    ((metrics_messages_sent exampleInternal id ["/health"] () (Any.val "ping") svcGet
      failingHandler 0 5000000 Any.nil (some (GoError.status Code.NotFound "no such key")) []
      (by decide) rfl).2 (by simp)).2⟩

/-- C10: for a method identifier outside the skip list and a handler that
returns `(resp, err)`, the calls of one invocation are, in this order: started
+1 with `A`; messages received +1 with `A`; the call of the handler (followed
by whatever the handler does); messages sent +1 with `A`, only if `err` is
nil; the latency record with `A`, whose value is the milliseconds between the
clock reading taken on entry, before any of these calls, and the reading after
the handler returned; handled +1 with `A` followed by the outcome attribute of
`err`.  `A` is the call-type attribute followed by the attributes parsed from
the method identifier; the outcome attribute is on the handled counter only. -/
theorem metrics_event_order {Ctx V W : Type} (I : Internal) (clock : W → Int)
    (Skips : List String) (ctx : Ctx) (req : Any V) (info : UnaryServerInfo)
    (handler : UnaryHandler Ctx V W) (w w1 : W) (resp : Any V) (err : Option GoError)
    (t1 : List (Event Ctx V))
    (hnot : info.FullMethod ∉ Skips)
    (hret : handler ctx req w = ⟨.ret (resp, err), w1, t1⟩) :
    (metrics.recording I clock (metrics.mkSkipMap Skips) ctx req info handler w).trace
      = [Event.add .serverStartedCounter ctx 1
            (I.GRPCType :: I.ParseFullMethod info.FullMethod),
          Event.add .serverStreamMsgReceived ctx 1
            (I.GRPCType :: I.ParseFullMethod info.FullMethod),
          Event.call ctx req]
        ++ t1
        ++ (if err = none then
              [Event.add .serverStreamMsgSent ctx 1
                (I.GRPCType :: I.ParseFullMethod info.FullMethod)]
            else [])
        ++ [Event.record .serverHandledHistogram ctx
              (metrics.Milliseconds (metrics.since (clock w) (clock w1)))
              (I.GRPCType :: I.ParseFullMethod info.FullMethod),
            Event.add .serverHandledCounter ctx 1
              ((I.GRPCType :: I.ParseFullMethod info.FullMethod) ++ [I.ParseError err])] := by
  rw [recording_of_ret I clock (metrics.mkSkipMap Skips) ctx req info handler w w1 resp err t1
    (mkSkipMap_eq_false info.FullMethod hnot) hret]

theorem metrics_event_order_witness :
    svcGet.FullMethod ∉ ["/health"]
      ∧ okHandler () (Any.val "ping") 0 = ⟨.ret (Any.val "pong", none), 5000000, []⟩
      ∧ (metrics.recording exampleInternal id (metrics.mkSkipMap ["/health"]) ()
          (Any.val "ping") svcGet okHandler 0).trace
        = [Event.add .serverStartedCounter () 1 [⟨"type", "unary"⟩, ⟨"full_method", "/svc/Get"⟩],
            Event.add .serverStreamMsgReceived () 1
              [⟨"type", "unary"⟩, ⟨"full_method", "/svc/Get"⟩],
            Event.call () (Any.val "ping"),
            Event.add .serverStreamMsgSent () 1
              [⟨"type", "unary"⟩, ⟨"full_method", "/svc/Get"⟩],
            Event.record .serverHandledHistogram () 5
              [⟨"type", "unary"⟩, ⟨"full_method", "/svc/Get"⟩],
            Event.add .serverHandledCounter () 1
              [⟨"type", "unary"⟩, ⟨"full_method", "/svc/Get"⟩, ⟨"code", "OK"⟩]] :=
  ⟨by decide, rfl,
    metrics_event_order exampleInternal id ["/health"] () (Any.val "ping") svcGet okHandler
      0 5000000 (Any.val "pong") none [] (by decide) rfl⟩

/-- C6, as the spec states it, fails: with the method "/svc/Get" not skipped
and a handler that panics with "boom", the panic leaves the metrics
interceptor, which has made no addition to "requests handled" and no latency
record: its only recorder calls are the two made before the handler ran. -/
theorem metrics_panic_records_nothing_after :
    (metrics.recording exampleInternal id (metrics.mkSkipMap ["/health"]) ()
        (Any.val "ping") svcGet boomHandler 0).res = Res.panic (Any.val "boom")
      ∧ adds .serverHandledCounter (metrics.recording exampleInternal id
          (metrics.mkSkipMap ["/health"]) () (Any.val "ping") svcGet boomHandler 0).trace = []
      ∧ recorderCalls (metrics.recording exampleInternal id
          (metrics.mkSkipMap ["/health"]) () (Any.val "ping") svcGet boomHandler 0).trace
        = [Event.add .serverStartedCounter () 1 [⟨"type", "unary"⟩, ⟨"full_method", "/svc/Get"⟩],
            Event.add .serverStreamMsgReceived () 1
              [⟨"type", "unary"⟩, ⟨"full_method", "/svc/Get"⟩]] := by
  refine ⟨rfl, rfl, rfl⟩

/-- C6, amended: for a method identifier outside the skip list and a handler
that panics with the recovered value `p`: wrapped directly by the metrics
interceptor, the panic leaves the metrics interceptor after the additions to
"requests started" and "messages received", with no latency record and no
addition to "requests handled"; wrapped by the recovery interceptor (default
conversion handler) inside the metrics interceptor, the metrics interceptor
gets the Internal status error back, records the latency, adds 1 to "requests
handled" exactly once, with the outcome attribute of that error, makes no
addition to "messages sent", and returns the nil response and that error. -/
theorem metrics_handled_under_panic {Ctx V W : Type} (I : Internal) (clock : W → Int)
    (Skips : List String) (fmtV : V → String) (ctx : Ctx) (req : Any V)
    (info : UnaryServerInfo) (handler : UnaryHandler Ctx V W) (w w1 : W) (p : Any V)
    (t1 : List (Event Ctx V))
    (hnot : info.FullMethod ∉ Skips)
    (hpanic : handler ctx req w = ⟨.panic p, w1, t1⟩) :
    metrics.recording I clock (metrics.mkSkipMap Skips) ctx req info handler w
        = ⟨.panic p, w1,
            [Event.add .serverStartedCounter ctx 1
                (I.GRPCType :: I.ParseFullMethod info.FullMethod),
              Event.add .serverStreamMsgReceived ctx 1
                (I.GRPCType :: I.ParseFullMethod info.FullMethod),
              Event.call ctx req]
            ++ t1⟩
      ∧ metrics.recording I clock (metrics.mkSkipMap Skips) ctx req info
          (fun c q => recovery.GRPCServerMiddleware fmtV [] c q info handler) w
        = ⟨.ret (Any.nil, some (GoError.status Code.Internal
              ("panic triggered: " ++
                (match p with
                  | Any.err e => fmtPlusV e
                  | q => sprintV fmtV q)))),
            w1,
            [Event.add .serverStartedCounter ctx 1
                (I.GRPCType :: I.ParseFullMethod info.FullMethod),
              Event.add .serverStreamMsgReceived ctx 1
                (I.GRPCType :: I.ParseFullMethod info.FullMethod),
              Event.call ctx req,
              Event.call ctx req]
            ++ t1
            ++ [Event.handle ctx p,
              Event.record .serverHandledHistogram ctx
                (metrics.Milliseconds (metrics.since (clock w) (clock w1)))
                (I.GRPCType :: I.ParseFullMethod info.FullMethod),
              Event.add .serverHandledCounter ctx 1
                ((I.GRPCType :: I.ParseFullMethod info.FullMethod)
                  ++ [I.ParseError (some (GoError.status Code.Internal
                      ("panic triggered: " ++
                        (match p with
                          | Any.err e => fmtPlusV e
                          | q => sprintV fmtV q))))])]⟩ := by
  have hskip := mkSkipMap_eq_false info.FullMethod hnot
  refine ⟨recording_of_panic I clock (metrics.mkSkipMap Skips) ctx req info handler w w1 p t1
    hskip hpanic, ?_⟩
  have hin := interceptor_default_of_panic fmtV ctx req info handler w w1 p t1 hpanic
  rw [recording_of_ret I clock (metrics.mkSkipMap Skips) ctx req info
    (fun c q => recovery.GRPCServerMiddleware fmtV [] c q info handler) w w1 Any.nil _ _
    hskip hin]
  simp

theorem metrics_handled_under_panic_witness :
    svcGet.FullMethod ∉ ["/health"]
      ∧ boomHandler () (Any.val "ping") 0 = ⟨.panic (Any.val "boom"), 0, []⟩
      ∧ (metrics.recording exampleInternal id (metrics.mkSkipMap ["/health"]) ()
            (Any.val "ping") svcGet boomHandler 0
          = ⟨.panic (Any.val "boom"), 0,
              [Event.add .serverStartedCounter () 1
                  [⟨"type", "unary"⟩, ⟨"full_method", "/svc/Get"⟩],
                Event.add .serverStreamMsgReceived () 1
                  [⟨"type", "unary"⟩, ⟨"full_method", "/svc/Get"⟩],
                Event.call () (Any.val "ping")]
              ++ []⟩
        ∧ metrics.recording exampleInternal id (metrics.mkSkipMap ["/health"]) ()
            (Any.val "ping") svcGet
            (fun c q => recovery.GRPCServerMiddleware id [] c q svcGet boomHandler) 0
          = ⟨.ret (Any.nil, some (GoError.status Code.Internal ("panic triggered: " ++ "boom"))),
              0,
              [Event.add .serverStartedCounter () 1
                  [⟨"type", "unary"⟩, ⟨"full_method", "/svc/Get"⟩],
                Event.add .serverStreamMsgReceived () 1
                  [⟨"type", "unary"⟩, ⟨"full_method", "/svc/Get"⟩],
                Event.call () (Any.val "ping"),
                Event.call () (Any.val "ping")]
              ++ []
              ++ [Event.handle () (Any.val "boom"),
                Event.record .serverHandledHistogram () 0
                  [⟨"type", "unary"⟩, ⟨"full_method", "/svc/Get"⟩],
                Event.add .serverHandledCounter () 1
                  [⟨"type", "unary"⟩, ⟨"full_method", "/svc/Get"⟩, ⟨"code", "Internal"⟩]]⟩) :=
  ⟨by decide, rfl,
    metrics_handled_under_panic exampleInternal id ["/health"] id () (Any.val "ping") svcGet
      boomHandler 0 0 (Any.val "boom") [] (by decide) rfl⟩

end Leo
